import Mathlib

set_option maxRecDepth 20000

/-!
Verification development for the itty-bitty-news-bot repository.

The repository has two Python source files:
* `main.py`  — RAW-mode poster: relevance classifier (`hard_block`), story
  clustering (`cluster_items` / `pick_best_source`) and the duplicate guard
  (`is_duplicate_or_allowed_update`).
* `digest.py` — nightly digest: relevance classifier (`block_reason` /
  `game_or_adjacent`), the two-pass top-N selector in `main`, and the Adilo
  featured-video resolver (`resolve_featured_adilo_watch_url`).

Both files are embedded below.  Text processing is done over `List Char`
so that every definition is executable and kernel-reducible.  Python
`str.lower` / `in` (substring) / `strip` / regexes are mirrored by explicit
character-level functions.  Machine timestamps are `Int` seconds.
-/

namespace NewsBot

/-- Lower-case a character list (Python `str.lower` on the ASCII inputs used
by the term lists; non-ASCII characters are left unchanged, as in CPython for
the characters that actually occur in the lists). -/
def lowerChars (l : List Char) : List Char := l.map Char.toLower

/-- Substring test: does `needle` occur contiguously inside `hay`?
Mirrors Python `needle in hay` on strings. -/
def infixOf (needle : List Char) : List Char → Bool
| [] => needle.isEmpty
| c :: t => needle.isPrefixOf (c :: t) || infixOf needle t

/-- Python `t.strip()` at the character-list level. -/
def trimChars (l : List Char) : List Char :=
  ((l.dropWhile Char.isWhitespace).reverse.dropWhile Char.isWhitespace).reverse

/-- Helper of `collapseWs`: `insideRun` records whether the previous
character was whitespace, so only the first character of each whitespace run
emits the single replacement space. -/
def collapseWsAux (insideRun : Bool) : List Char → List Char
| [] => []
| c :: r =>
  if c.isWhitespace then
    if insideRun then collapseWsAux true r else ' ' :: collapseWsAux true r
  else c :: collapseWsAux false r

/-- Python `re.sub(r"\s+", " ", s)`: collapse every whitespace run to a
single space. -/
def collapseWs (l : List Char) : List Char := collapseWsAux false l

/-- `f"{title} {summary}"`. -/
def joinTS (title summary : String) : String := title ++ (" ") ++ summary

/-- `contains_any(hay, terms)` from both source files:
`h = hay.lower(); any(t.lower() in h for t in terms)`. -/
def contains_any (hay : String) (terms : List String) : Bool :=
  let h := lowerChars hay.toList
  terms.any (fun t => infixOf (lowerChars t.toList) h)

/-- One step of the money-signal search: the regex
`(\$\d)|(\d+\s*%(\s*off)?)` matched at the current position or later.
The optional `(\s*off)?` group never affects whether a match exists, and the
greedy `\d+\s*` is equivalent to skipping the whole digit run and then the
whole whitespace run. -/
def moneyAux : List Char → Bool
| [] => false
| c :: r =>
  (c == '$' && (match r with | d :: _ => d.isDigit | [] => false))
  || (c.isDigit &&
        (match (r.dropWhile Char.isDigit).dropWhile Char.isWhitespace with
         | p :: _ => p == '%'
         | [] => false))
  || moneyAux r

/-- `has_money_signals(text)` from both source files (the regex search
described at `moneyAux`). -/
def has_money_signals (text : String) : Bool := moneyAux text.toList

end NewsBot

namespace NewsBot.Digest

/-- `GAME_TERMS` of digest.py. -/
def GAME_TERMS : List String := [
  ("video game"), ("videogame"), ("gaming"),
  ("xbox"), ("playstation"), ("ps5"), ("ps4"), ("nintendo"), ("switch"),
  ("steam"), ("epic games"), ("gog"), ("game pass"),
  ("pc gaming"), ("console"), ("handheld"),
  ("dlc"), ("expansion"), ("season"), ("battle pass"),
  ("patch"), ("update"), ("hotfix"),
  ("release date"), ("launch"), ("early access"), ("beta"), ("alpha"), ("demo"),
  ("studio"), ("developer"), ("publisher"),
  ("esports"), ("tournament"),
  ("playstation studios"), ("ubisoft"), ("ea"), ("activision"), ("blizzard"),
  ("bethesda"), ("capcom"),
  ("bandai namco"), ("square enix"), ("sega"), ("take-two"), ("2k"),
  ("rockstar"), ("valve")]

/-- `ADJACENT_TERMS` of digest.py. -/
def ADJACENT_TERMS : List String := [
  ("gpu"), ("graphics card"), ("nvidia"), ("amd"), ("intel"), ("driver"),
  ("dlss"), ("fsr"),
  ("steam deck"), ("rog ally"), ("handheld pc"),
  ("unity"), ("unreal engine"), ("unreal"),
  ("discord"), ("twitch"), ("youtube gaming"), ("streaming"),
  ("vr"), ("virtual reality"), ("meta quest")]

/-- `LISTICLE_GUIDE_BLOCK` of digest.py. -/
def LISTICLE_GUIDE_BLOCK : List String := [
  ("best "), ("top "), ("ranked"), ("ranking"), ("tier list"),
  ("everything you need to know"), ("explained"),
  ("review"), ("preview"), ("impressions"),
  ("guide"), ("walkthrough"), ("tips"), ("tricks")]

/-- `EVERGREEN_BLOCK` of digest.py. -/
def EVERGREEN_BLOCK : List String := [
  ("history of"), ("timeline"), ("retrospective"), ("complete history"),
  ("recap"), ("ending explained"), ("lore"), ("beginner\x27s guide"),
  ("what we know so far")]

/-- `COMMUNITY_OPINION_BLOCK` of digest.py. -/
def COMMUNITY_OPINION_BLOCK : List String := [
  ("opinion:"), ("editorial:"), ("commentary"), ("column:"), ("feature:"),
  ("roundtable"), ("debate:"), ("discussion:"), ("hot take"),
  ("poll:"), ("quiz:"), ("mailbox:"), ("mailbag"), ("letters"), ("community"),
  ("favorite"), ("favourite")]

/-- `DEALS_BLOCK` of digest.py. -/
def DEALS_BLOCK : List String := [
  ("deal"), ("deals"), ("sale"), ("discount"), ("save "),
  ("coupon"), ("promo code"), ("price drop"), ("drops to"), ("lowest price"),
  ("now %"), ("% off"), ("limited-time"),
  ("for just $"), ("for only $"),
  ("woot"), ("amazon"), ("best buy"), ("walmart"), ("target"), ("newegg"),
  ("power bank"), ("mah"), ("charger"), ("charging"), ("usb-c")]

/-- `RUMOR_BLOCK` of digest.py. -/
def RUMOR_BLOCK : List String := [
  ("rumor"), ("rumour"), ("leak"), ("leaked"), ("leaks"),
  ("speculation"), ("speculate"), ("reportedly"), ("allegedly"),
  ("unconfirmed"), ("according to sources"), ("insider")]

/-- `NON_GAMING_ENTERTAINMENT_BLOCK` of digest.py. -/
def NON_GAMING_ENTERTAINMENT_BLOCK : List String := [
  ("walt disney world"), ("disney world"), ("disneyland"),
  ("disney\x27s hollywood studios"),
  ("audio-animatronics"), ("animation academy"), ("olaf"), ("frozen"),
  ("theme park"), ("theme-park"), ("ride"), ("attraction"),
  ("movie"), ("film"), ("tv"), ("television"), ("series"), ("episode"),
  ("netflix"), ("hulu"), ("disney+"), ("paramount"), ("max"), ("hbo"),
  ("comic"), ("comics"), ("dc "), ("marvel"), ("green arrow"), ("catwoman")]

/-- `NEWS_HINTS` of digest.py. -/
def NEWS_HINTS : List String := [
  ("announced"), ("announcement"), ("revealed"), ("reveal"),
  ("launch"), ("release date"), ("out now"), ("available now"), ("live now"),
  ("delay"), ("delayed"), ("layoff"), ("layoffs"),
  ("shutdown"), ("closed"), ("acquisition"), ("acquired"), ("merger"),
  ("lawsuit"), ("sued"),
  ("patch"), ("hotfix"), ("update"),
  ("retire"), ("retirement"), ("steps down"), ("stepping down"),
  ("resigns"), ("resignation")]

/-- `looks_like_a_specific_game_title(title)` of digest.py:
`t = title.strip(); len(t) >= 12 and (":" in t or " - " in t)`.
Note the subtitle delimiter in the source is a plain spaced ASCII hyphen. -/
def looks_like_a_specific_game_title (title : String) : Bool :=
  let t := trimChars title.toList
  if t.length < 12 then false
  else infixOf (":").toList t || infixOf (" - ").toList t

/-- `game_or_adjacent(title, summary)` of digest.py — the digest relevance
gate.  An entertainment-block hit vetoes the gate before the allowlist or
the title-shape heuristic are consulted. -/
def game_or_adjacent (title summary : String) : Bool :=
  let hay := joinTS title summary
  if contains_any hay NON_GAMING_ENTERTAINMENT_BLOCK then false
  else if contains_any hay GAME_TERMS || contains_any hay ADJACENT_TERMS then true
  else if looks_like_a_specific_game_title title then true
  else false

/-- `block_reason(title, summary)` of digest.py.  Returns the empty string
for accepted items, otherwise the first matching reason code in source
order: entertainment, relevance gate, community, listicle, evergreen,
deals/money, rumor. -/
def block_reason (title summary : String) : String :=
  let hay := joinTS title summary
  if contains_any hay NON_GAMING_ENTERTAINMENT_BLOCK then ("NON_GAMING_ENTERTAINMENT")
  else if !(game_or_adjacent title summary) then ("NOT_GAME_OR_ADJACENT")
  else if contains_any hay COMMUNITY_OPINION_BLOCK then ("COMMUNITY/OPINION")
  else if contains_any hay LISTICLE_GUIDE_BLOCK then ("LISTICLE/GUIDE/REVIEW")
  else if contains_any hay EVERGREEN_BLOCK then ("EVERGREEN/SEO_REFRESH")
  else if contains_any hay DEALS_BLOCK || has_money_signals hay then ("DEALS/SHOPPING")
  else if contains_any hay RUMOR_BLOCK then ("RUMOR/SPECULATION")
  else ("")

/-- `normalize_title_key(title)` of digest.py:
`re.sub(r"\s+", " ", re.sub(r"[^a-z0-9\s]", " ", title.lower())).strip()`. -/
def normalize_title_key (title : String) : String :=
  let l1 := lowerChars title.toList
  let l2 := l1.map (fun c =>
    if (('a' ≤ c && c ≤ 'z') || c.isDigit || c.isWhitespace) then c else ' ')
  String.mk (trimChars (collapseWs l2))

end NewsBot.Digest

namespace NewsBot.Main

/-- `GAME_TERMS` of main.py (unlike digest.py it contains the bare words
"game" and "bluepoint" and omits the publisher names). -/
def GAME_TERMS : List String := [
  ("video game"), ("videogame"), ("game"), ("gaming"),
  ("xbox"), ("playstation"), ("ps5"), ("ps4"), ("nintendo"), ("switch"),
  ("steam"), ("epic games"), ("gog"), ("game pass"),
  ("pc gaming"), ("console"), ("handheld"),
  ("dlc"), ("expansion"), ("season"), ("battle pass"),
  ("patch"), ("update"), ("hotfix"),
  ("release date"), ("launch"), ("early access"), ("beta"), ("alpha"), ("demo"),
  ("studio"), ("developer"), ("publisher"),
  ("esports"), ("tournament"),
  ("playstation studios"), ("bluepoint")]

/-- `ADJACENT_TERMS` of main.py (identical to the digest.py list). -/
def ADJACENT_TERMS : List String := [
  ("gpu"), ("graphics card"), ("nvidia"), ("amd"), ("intel"), ("driver"),
  ("dlss"), ("fsr"),
  ("steam deck"), ("rog ally"), ("handheld pc"),
  ("unity"), ("unreal engine"), ("unreal"),
  ("discord"), ("twitch"), ("youtube gaming"), ("streaming"),
  ("vr"), ("virtual reality"), ("meta quest")]

/-- `LISTICLE_GUIDE_BLOCK` of main.py. -/
def LISTICLE_GUIDE_BLOCK : List String := [
  ("best "), ("top "), ("ranked"), ("ranking"), ("tier list"),
  ("everything you need to know"), ("explained"),
  ("review"), ("preview"), ("impressions"),
  ("guide"), ("walkthrough"), ("tips"), ("tricks")]

/-- `EVERGREEN_BLOCK` of main.py. -/
def EVERGREEN_BLOCK : List String := [
  ("history of"), ("timeline"), ("retrospective"), ("complete history"),
  ("recap"), ("ending explained"), ("lore"), ("beginner\x27s guide"),
  ("what we know so far")]

/-- `COMMUNITY_OPINION_BLOCK` of main.py (the "poll —" entry carries a
Unicode em dash in the source). -/
def COMMUNITY_OPINION_BLOCK : List String := [
  ("poll:"), ("poll -"), ("poll —"), ("poll "),
  ("mailbox:"), ("letters"), ("letter:"), ("community"),
  ("what\x27s your favourite"), ("what\x27s your favorite"),
  ("favourite"), ("favorite gen"), ("which is your"),
  ("fun with strangers"), ("sterility"),
  ("quiz:"), ("commentary"), ("opinion:"), ("editorial:")]

/-- `DEALS_BLOCK` of main.py. -/
def DEALS_BLOCK : List String := [
  ("deal"), ("deals"), ("sale"), ("discount"), ("save "),
  ("coupon"), ("promo code"), ("price drop"), ("drops to"), ("lowest price"),
  ("now %"), ("% off"), ("off)"), ("limited-time"),
  ("for just $"), ("for only $"),
  ("woot"), ("amazon"), ("best buy"), ("walmart"), ("target"), ("newegg"),
  ("power bank"), ("mah"), ("charger"), ("charging"), ("usb-c")]

/-- `RUMOR_BLOCK` of main.py. -/
def RUMOR_BLOCK : List String := [
  ("rumor"), ("rumour"), ("leak"), ("leaked"), ("leaks"),
  ("speculation"), ("speculate"), ("reportedly"), ("allegedly"),
  ("unconfirmed"), ("according to sources"), ("insider")]

/-- `NON_GAME_ENTERTAINMENT_BLOCK` of main.py. -/
def NON_GAME_ENTERTAINMENT_BLOCK : List String := [
  ("movie"), ("film"), ("tv"), ("television"), ("series"), ("episode"),
  ("netflix"), ("hulu"), ("disney"), ("paramount"), ("max"), ("hbo"),
  ("comic"), ("comics"), ("dc "), ("marvel"), ("green arrow"), ("catwoman"),
  ("anime")]

/-- `UPDATE_KEYWORDS` of main.py. -/
def UPDATE_KEYWORDS : List String := [
  ("update"), ("updated"), ("new details"), ("more details"), ("confirmed"),
  ("statement"), ("responds"), ("clarifies"), ("patch"), ("hotfix")]

/-- `SOURCE_PRIORITY` of main.py (digest.py declares the identical list). -/
def SOURCE_PRIORITY : List String := [
  ("IGN"), ("GameSpot"), ("VGC"), ("Gematsu"),
  ("Polygon"), ("Nintendo Life"), ("PC Gamer"), ("Blue\x27s News")]

/-- `game_or_adjacent(title, summary)` of main.py — the RAW-mode relevance
gate.  Plain allowlist membership; main.py has no title-shape heuristic and
no entertainment veto inside the gate. -/
def game_or_adjacent (title summary : String) : Bool :=
  let hay := joinTS title summary
  contains_any hay GAME_TERMS || contains_any hay ADJACENT_TERMS

/-- `hard_block(title, summary)` of main.py.  Returns the empty string for
accepted items, otherwise the first matching reason code in source order:
relevance gate, community, listicle, evergreen, deals/money, rumor, and a
final entertainment branch whose condition repeats the negated gate. -/
def hard_block (title summary : String) : String :=
  let hay := joinTS title summary
  if !(game_or_adjacent title summary) then ("NOT_GAME_OR_ADJACENT")
  else if contains_any hay COMMUNITY_OPINION_BLOCK then ("COMMUNITY/OPINION")
  else if contains_any hay LISTICLE_GUIDE_BLOCK then ("LISTICLE/GUIDE/REVIEW")
  else if contains_any hay EVERGREEN_BLOCK then ("EVERGREEN/SEO_REFRESH")
  else if contains_any hay DEALS_BLOCK || has_money_signals hay then ("DEALS/SHOPPING")
  else if contains_any hay RUMOR_BLOCK then ("RUMOR/SPECULATION")
  else if contains_any hay NON_GAME_ENTERTAINMENT_BLOCK
          && !(game_or_adjacent title summary) then ("NON_GAME_ENTERTAINMENT")
  else ("")

/-- `contains_update_keyword(title, summary)` of main.py. -/
def contains_update_keyword (title summary : String) : Bool :=
  contains_any (joinTS title summary) UPDATE_KEYWORDS

end NewsBot.Main

namespace NewsBot

/-- Generic pairwise key order used by the embeddings of Python
`list.sort(key=…, reverse=True)`: strictly-greater goes in front, equal keys
keep their original relative order (Python sorts are stable). -/
def insertDescBy {α : Type} {β : Type} [LinearOrder β] (f : α → β) (x : α) :
    List α → List α
| [] => [x]
| y :: ys => if f y ≤ f x then x :: y :: ys else y :: insertDescBy f x ys

/-- Stable descending sort by key `f` (insertion sort; agrees with Python's
stable `sorted(…, key=f, reverse=True)` as a function). -/
def sortDescBy {α : Type} {β : Type} [LinearOrder β] (f : α → β) :
    List α → List α
| [] => []
| x :: xs => insertDescBy f x (sortDescBy f xs)

/-- Helper of `dedupFirst`: keep the keys not seen yet, in order. -/
def dedupFirstAux (seen : List String) : List String → List String
| [] => []
| k :: t =>
  if seen.contains k then dedupFirstAux seen t
  else k :: dedupFirstAux (k :: seen) t

/-- Keys in order of first occurrence — the key sequence of a Python dict
built by `buckets.setdefault(key, []).append(…)`. -/
def dedupFirst (l : List String) : List String := dedupFirstAux [] l

end NewsBot

namespace NewsBot.Main

/-- The `Item` dataclass of main.py; `published_at` is a UTC timestamp in
seconds (`datetime.timestamp()` order agrees with it). -/
structure Item where
  source : String
  title : String
  url : String
  published_at : Int
  summary : String
  image_url : String
  story_key : String
deriving DecidableEq, Repr

/-- The persisted `state.json` shape used by the duplicate guard. -/
structure SeenState where
  seen_urls : List String
  seen_story_keys : List String
  seen_titles : List String
deriving DecidableEq, Repr

/-- `TITLE_FUZZY_THRESHOLD` (default of the environment override). -/
def TITLE_FUZZY_THRESHOLD : Nat := 92

/-- Python `lst[-n:]`. -/
def lastN {α : Type} (n : Nat) (l : List α) : List α := l.drop (l.length - n)

/-- The normalized candidate title used by the guard and by `remember`:
`re.sub(r"\s+", " ", title.strip().lower())`. -/
def normTitle (title : String) : String :=
  String.mk (collapseWs (lowerChars (trimChars title.toList)))

/-- `is_duplicate_or_allowed_update(item, state)` of main.py.  `fuzzScore`
stands for `rapidfuzz.fuzz.ratio` restricted to the 0–100 integer scale on
which the threshold comparison happens; the guard's logic does not depend on
anything else about it.  Note the fuzzy scan runs over `seen_titles[-500:]`
only. -/
def is_duplicate_or_allowed_update (fuzzScore : String → String → Nat)
    (item : Item) (state : SeenState) : Bool :=
  if state.seen_urls.contains item.url then true
  else
    let is_update := contains_update_keyword item.title item.summary
    if state.seen_story_keys.contains item.story_key && !is_update then true
    else
      let title_norm := normTitle item.title
      if (lastN 500 state.seen_titles).any
          (fun seen =>
            decide (TITLE_FUZZY_THRESHOLD ≤ fuzzScore title_norm seen)
              && !is_update) then true
      else false

/-- `remember(item, state)` of main.py: append, then keep the newest 5000
entries of each history list. -/
def remember (item : Item) (state : SeenState) : SeenState :=
  { seen_urls := lastN 5000 (state.seen_urls ++ [item.url])
    seen_story_keys := lastN 5000 (state.seen_story_keys ++ [item.story_key])
    seen_titles := lastN 5000 (state.seen_titles ++ [normTitle item.title]) }

/-- `priority.get(x.source, 999)` of `pick_best_source`. -/
def prioIndex (s : String) : Nat :=
  (SOURCE_PRIORITY.findIdx? (fun t => t == s)).getD 999

/-- The sort key of `pick_best_source`:
`(priority.get(x.source, 999), -x.published_at.timestamp())`. -/
def pbKey (x : Item) : Nat × Int := (prioIndex x.source, -x.published_at)

/-- Strict lexicographic comparison of `pick_best_source` keys. -/
def pbLt (a b : Nat × Int) : Prop := a.1 < b.1 ∨ (a.1 = b.1 ∧ a.2 < b.2)

instance (a b : Nat × Int) : Decidable (pbLt a b) := by
  unfold pbLt; infer_instance

/-- Non-strict lexicographic comparison of `pick_best_source` keys. -/
def pbLe (a b : Nat × Int) : Prop := ¬ pbLt b a

/-- `pick_best_source(cluster)` of main.py: `sorted(cluster, key)[0]`, i.e.
the earliest element attaining the minimal key (Python's sort is stable). -/
def pick_best_source : List Item → Option Item
| [] => none
| x :: xs =>
  some (xs.foldl (fun best y => if pbLt (pbKey y) (pbKey best) then y else best) x)

/-- The bucket `buckets[k]` of `cluster_items`: the items carrying story
key `k`, in input order. -/
def groupOf (items : List Item) (k : String) : List Item :=
  items.filter (fun it => it.story_key == k)

/-- The `chosen` list of `cluster_items`: one `pick_best_source` winner per
story-key bucket, buckets in first-occurrence key order. -/
def chosenReps (items : List Item) : List Item :=
  (dedupFirst (items.map (fun it => it.story_key))).filterMap
    (fun k => pick_best_source (groupOf items k))

/-- `cluster_items(items)` of main.py: bucket by `story_key` (first-occurrence
key order), pick one representative per bucket with `pick_best_source`, then
stably sort representatives by `published_at` descending. -/
def cluster_items (items : List Item) : List Item :=
  sortDescBy (fun x => x.published_at) (chosenReps items)

end NewsBot.Main

namespace NewsBot.Digest

/-- Resolver confidence. Modelled from the spec: the Python function returns
only the watch-URL string; the spec's `ResolvedMedia.confidence` is attached
here to the strategy branch that produced the URL (forced override and a
fresh API hit are validated results, a scraped identifier is the positional
heuristic, and the two configuration fallbacks are `FALLBACK`). -/
inductive Confidence where
| HIGH : Confidence
| LOW : Confidence
| FALLBACK : Confidence
deriving DecidableEq, Repr

/-- The configuration surface read by `resolve_featured_adilo_watch_url`
(environment variables in the source, all stripped strings; an empty string
means "not configured", matching Python truthiness). -/
structure ResolverConfig where
  forceId : String
  fallbackId : String
  fallbackUrl : String
  publicKey : String
  secretKey : String
  projectId : String
deriving DecidableEq, Repr

/-- `f"https://adilo.bigcommand.com/watch/{id}"`. -/
def watchUrl (id : String) : String :=
  ("https://adilo.bigcommand.com/watch/") ++ id

/-- The `PROBES` query-string variants of the API strategy. -/
def PROBES : List String := [
  (""), ("&Sort=desc"), ("&sort=desc"),
  ("&OrderBy=upload_date&Order=desc"), ("&OrderBy=UploadDate&Order=desc")]

/-- `timedelta(days=14)` in seconds. -/
def fourteenDaysSecs : Int := 14 * 86400

/-- The API probe loop of `resolve_featured_adilo_watch_url`.  `api p` is the
observable outcome of one probe: `some (id, dt)` when the probe produced a
newest `(file id, upload date)` pair, `none` when the request raised, returned
no items, or yielded no parseable dates (all of which the source catches and
skips).  A probe whose date is within the 14-day freshness bound returns its
watch URL immediately; otherwise the loop only updates the `best` pair, which
the source subsequently ignores (it always falls through to the scrape), so
the loop's only output is the early return. -/
def probeLoop (now : Int) (api : String → Option (String × Int)) :
    List String → Option String
| [] => none
| p :: rest =>
  match api p with
  | some (id, dt) =>
    if now - fourteenDaysSecs < dt then some (watchUrl id)
    else probeLoop now api rest
  | none => probeLoop now api rest

/-- Steps 3 of `resolve_featured_adilo_watch_url`: the scrape result
(`scrape_latest_adilo_id()`, whose network and pattern-matching behaviour is
summarized by the `scrape` oracle) and the final
`return fallback_watch_url or FEATURED_VIDEO_FALLBACK_URL`. -/
def scrapeOrFallback (cfg : ResolverConfig) (scrape : Option String) :
    String × Confidence :=
  match scrape with
  | some id => (watchUrl id, Confidence.LOW)
  | none =>
    if cfg.fallbackId = ("") then (cfg.fallbackUrl, Confidence.FALLBACK)
    else (watchUrl cfg.fallbackId, Confidence.FALLBACK)

/-- `resolve_featured_adilo_watch_url()` of digest.py over explicit
collaborator oracles: forced override first; then the API probe chain when
all three credentials are configured; then the public-page scrape; then the
configured fallbacks.  Every network failure inside the strategies is caught
in the source, which this total function mirrors. -/
def resolve_featured_adilo_watch_url (cfg : ResolverConfig) (now : Int)
    (api : String → Option (String × Int)) (scrape : Option String) :
    String × Confidence :=
  if cfg.forceId = ("") then
    if cfg.publicKey = ("") ∨ cfg.secretKey = ("") ∨ cfg.projectId = ("") then
      scrapeOrFallback cfg scrape
    else
      match probeLoop now api PROBES with
      | some u => (u, Confidence.HIGH)
      | none => scrapeOrFallback cfg scrape
  else (watchUrl cfg.forceId, Confidence.HIGH)

/-- The candidate dict shape built by digest.py's `main` feed loop. -/
structure DItem where
  source : String
  title : String
  url : String
  published_at : Int
  summary : String
  image_url : String
deriving DecidableEq, Repr

/-- `SOURCE_PRIORITY` index with default, as in digest.py's `score_item`
(`prio.get(item["source"], 999)`). -/
def prioIndex (s : String) : Nat :=
  (Main.SOURCE_PRIORITY.findIdx? (fun t => t == s)).getD 999

/-- `score_item(item)` of digest.py over exact rationals (the source uses
IEEE floats; every constant and operation here is exact, so the embedding
computes the same ordering wherever the float computation does not round). -/
def score_item (now : Int) (item : DItem) : ℚ :=
  let p : ℚ := (prioIndex item.source : ℚ)
  let age_hours : ℚ := max 0 (((now - item.published_at : Int) : ℚ) / 3600)
  let recency_score : ℚ := max 0 (36 - age_hours)
  let source_score : ℚ := max 0 (10 - p * (8 / 10))
  let hint : ℚ :=
    if contains_any (joinTS item.title item.summary) NEWS_HINTS then 8 else 0
  let blues_penalty : ℚ := if item.source = ("Blue\x27s News") then 5 / 2 else 0
  recency_score + source_score + hint - blues_penalty

/-- Items of one source, best score first:
`by_source[s]` after `by_source[s].sort(key=score_item, reverse=True)`. -/
def bySource {β : Type} [LinearOrder β] (score : DItem → β)
    (deduped : List DItem) (s : String) : List DItem :=
  sortDescBy score (deduped.filter (fun it => it.source == s))

/-- Count of picked items from source `s` — the value the source keeps in
its `counts` dict (each `counts[s] += 1` accompanies appending an item with
source `s` to `picked`, so the dict always equals this count). -/
def countSource (s : String) (l : List DItem) : Nat :=
  (l.filter (fun it => it.source == s)).length

/-- Pass 1 of digest.py's selection: one top-scored item per source in
priority order until `topN` is reached, skipping already-used title keys. -/
def pass1 {β : Type} [LinearOrder β] (score : DItem → β) (deduped : List DItem)
    (topN : Nat) : List String → List DItem → List String →
    List DItem × List String
| [], picked, used => (picked, used)
| s :: rest, picked, used =>
  if topN ≤ picked.length then (picked, used)
  else
    match bySource score deduped s with
    | [] => pass1 score deduped topN rest picked used
    | it :: _ =>
      let k := normalize_title_key it.title
      if used.contains k then pass1 score deduped topN rest picked used
      else pass1 score deduped topN rest (picked ++ [it]) (used ++ [k])

/-- Pass 2 of digest.py's selection: fill by global score descending while
enforcing `MAX_PER_SOURCE` and the used-title-key set. -/
def pass2 (topN mps : Nat) :
    List DItem → List DItem → List String → List DItem
| [], picked, _ => picked
| it :: rest, picked, used =>
  if topN ≤ picked.length then picked
  else if mps ≤ countSource it.source picked then pass2 topN mps rest picked used
  else
    let k := normalize_title_key it.title
    if used.contains k then pass2 topN mps rest picked used
    else pass2 topN mps rest (picked ++ [it]) (used ++ [k])

/-- The selection stage of digest.py's `main` (lines building `picked` and
`ranked` from `deduped`): pass 1 over `SOURCE_PRIORITY`, pass 2 over all
deduped candidates by global score, then the final rank by score descending.
The score function is a parameter so that the selection structure is stated
for every scoring (including `score_item`). -/
def select {β : Type} [LinearOrder β] (score : DItem → β)
    (deduped : List DItem) (topN mps : Nat) : List DItem :=
  let s1 := pass1 score deduped topN Main.SOURCE_PRIORITY [] []
  let p2 := pass2 topN mps (sortDescBy score deduped) s1.1 s1.2
  sortDescBy score p2

/-- Number of distinct sources among the candidates (used to state the
claim's "fewer than topN distinct-source items exist" proviso). -/
def distinctSourceCount (l : List DItem) : Nat :=
  (dedupFirst (l.map (fun it => it.source))).length

/-- The classifier evaluation order exactly as the claim states it, applied
to digest.py's term lists: relevance gate first (allowlist term or
specific-title shape), then entertainment, community, listicle, evergreen,
deals/money, rumor.  Stated from the spec's words for comparison with the
source's `block_reason`. -/
def claimOrderReason (title summary : String) : String :=
  let hay := joinTS title summary
  if !(contains_any hay GAME_TERMS || contains_any hay ADJACENT_TERMS
        || looks_like_a_specific_game_title title) then ("NOT_GAME_OR_ADJACENT")
  else if contains_any hay NON_GAMING_ENTERTAINMENT_BLOCK then ("NON_GAMING_ENTERTAINMENT")
  else if contains_any hay COMMUNITY_OPINION_BLOCK then ("COMMUNITY/OPINION")
  else if contains_any hay LISTICLE_GUIDE_BLOCK then ("LISTICLE/GUIDE/REVIEW")
  else if contains_any hay EVERGREEN_BLOCK then ("EVERGREEN/SEO_REFRESH")
  else if contains_any hay DEALS_BLOCK || has_money_signals hay then ("DEALS/SHOPPING")
  else if contains_any hay RUMOR_BLOCK then ("RUMOR/SPECULATION")
  else ("")

end NewsBot.Digest

namespace NewsBot

/-- A fuzzy-similarity oracle used by concrete instances: 100 on identical
strings, 0 otherwise (any real `fuzz.ratio` also scores 100 on identical
strings). -/
def simEq : String → String → Nat := fun a b => if a == b then 100 else 0

end NewsBot

namespace NewsBot.Main

/-- Fixture: a candidate whose normalized title is `alpha`. -/
def itAlpha : Item :=
  { source := ("IGN"), title := ("alpha"), url := ("u9"), published_at := 0,
    summary := (""), image_url := (""), story_key := ("k9") }

/-- Fixture: a history whose 501-entry title list retains `alpha` but pushes
it outside the final 500 entries. -/
def stDeep : SeenState :=
  { seen_urls := [], seen_story_keys := [],
    seen_titles := ("alpha") :: List.replicate 500 ("x") }

/-- Fixture: a short title history containing `alpha`. -/
def stShallow : SeenState :=
  { seen_urls := [], seen_story_keys := [], seen_titles := [("alpha")] }

/-- Fixture: a history with one seen URL and one seen story key. -/
def stSeen : SeenState :=
  { seen_urls := [("u1")], seen_story_keys := [("k1")], seen_titles := [] }

/-- Fixture: candidate whose exact URL is in `stSeen`, with update wording. -/
def itUrlDup : Item :=
  { source := ("IGN"), title := ("update please"), url := ("u1"),
    published_at := 0, summary := (""), image_url := (""), story_key := ("k1") }

/-- Fixture: fresh URL, seen story key, update wording. -/
def itKeyUpd : Item :=
  { source := ("IGN"), title := ("update please"), url := ("u2"),
    published_at := 0, summary := (""), image_url := (""), story_key := ("k1") }

/-- Fixture: fresh URL, seen story key, no update wording. -/
def itKeyNoUpd : Item :=
  { source := ("IGN"), title := ("hello"), url := ("u2"),
    published_at := 0, summary := (""), image_url := (""), story_key := ("k1") }

/-- Fixture: an IGN item sharing story key `k1`. -/
def iIGN : Item :=
  { source := ("IGN"), title := ("a"), url := ("ua"), published_at := 10,
    summary := (""), image_url := (""), story_key := ("k1") }

/-- Fixture: a Blue's News item sharing story key `k1`, published later. -/
def iBlues : Item :=
  { source := ("Blue\x27s News"), title := ("b"), url := ("ub"), published_at := 20,
    summary := (""), image_url := (""), story_key := ("k1") }

/-- Fixture: a Polygon item alone in story key `k2`. -/
def iPoly : Item :=
  { source := ("Polygon"), title := ("c"), url := ("uc"), published_at := 30,
    summary := (""), image_url := (""), story_key := ("k2") }

end NewsBot.Main

namespace NewsBot.Digest

/-- Fixture: resolver configuration with a forced identifier. -/
def cfgForce : ResolverConfig :=
  { forceId := ("ABC123"), fallbackId := (""),
    fallbackUrl := ("https://adilo.bigcommand.com/c/ittybittygamingnews/home"),
    publicKey := (""), secretKey := (""), projectId := ("") }

/-- Fixture: no forced identifier, a configured fallback identifier, full
API credentials. -/
def cfgNoForce : ResolverConfig :=
  { forceId := (""), fallbackId := ("VID999"),
    fallbackUrl := ("https://adilo.bigcommand.com/c/ittybittygamingnews/home"),
    publicKey := ("pk"), secretKey := ("sk"), projectId := ("pr") }

/-- Fixture: a single IGN digest candidate. -/
def iIGN1 : DItem :=
  { source := ("IGN"), title := ("t1"), url := ("u1"), published_at := 0,
    summary := (""), image_url := ("") }

end NewsBot.Digest

namespace NewsBot

section SortLemmas

variable {α β : Type} [LinearOrder β] (f : α → β)

theorem insertDescBy_perm (x : α) (l : List α) :
    (insertDescBy f x l).Perm (x :: l) := by
  induction l with
  | nil => exact List.Perm.refl _
  | cons y ys ih =>
    by_cases h : f y ≤ f x
    · simp [insertDescBy, h]
    · simp only [insertDescBy, if_neg h]
      exact ((ih).cons y).trans (List.Perm.swap x y ys)

theorem sortDescBy_perm (l : List α) : (sortDescBy f l).Perm l := by
  induction l with
  | nil => exact List.Perm.refl _
  | cons x xs ih =>
    exact (insertDescBy_perm f x (sortDescBy f xs)).trans (ih.cons x)

theorem mem_sortDescBy {x : α} {l : List α} :
    x ∈ sortDescBy f l ↔ x ∈ l :=
  (sortDescBy_perm f l).mem_iff

theorem countP_sortDescBy (p : α → Bool) (l : List α) :
    (sortDescBy f l).countP p = l.countP p :=
  (sortDescBy_perm f l).countP_eq p

theorem pairwise_insertDescBy {x : α} {l : List α}
    (h : l.Pairwise (fun a b => f b ≤ f a)) :
    (insertDescBy f x l).Pairwise (fun a b => f b ≤ f a) := by
  induction l with
  | nil => simp [insertDescBy]
  | cons y ys ih =>
    rcases List.pairwise_cons.mp h with ⟨h1, h2⟩
    by_cases hc : f y ≤ f x
    · simp only [insertDescBy, if_pos hc]
      refine List.pairwise_cons.mpr ⟨?_, h⟩
      intro z hz
      rcases List.mem_cons.mp hz with rfl | hz'
      · exact hc
      · exact le_trans (h1 z hz') hc
    · simp only [insertDescBy, if_neg hc]
      refine List.pairwise_cons.mpr ⟨?_, ih h2⟩
      intro z hz
      rcases List.mem_cons.mp ((insertDescBy_perm f x ys).mem_iff.mp hz) with rfl | hz'
      · exact le_of_not_le hc
      · exact h1 z hz'

theorem sortDescBy_pairwise (l : List α) :
    (sortDescBy f l).Pairwise (fun a b => f b ≤ f a) := by
  induction l with
  | nil => simp [sortDescBy]
  | cons x xs ih => exact pairwise_insertDescBy f ih

theorem insertDescBy_eq_cons {x : α} {l : List α}
    (h : ∀ z ∈ l, f z ≤ f x) : insertDescBy f x l = x :: l := by
  cases l with
  | nil => rfl
  | cons y ys =>
    simp only [insertDescBy, if_pos (h y (List.mem_cons_self y ys))]

theorem sortDescBy_eq_self {l : List α}
    (h : l.Pairwise (fun a b => f b ≤ f a)) : sortDescBy f l = l := by
  induction l with
  | nil => rfl
  | cons x xs ih =>
    rcases List.pairwise_cons.mp h with ⟨h1, h2⟩
    simp only [sortDescBy]
    rw [ih h2]
    exact insertDescBy_eq_cons f h1

end SortLemmas

section DedupLemmas

theorem mem_dedupFirstAux {a : String} :
    ∀ (l : List String) (seen : List String),
      a ∈ dedupFirstAux seen l ↔ (a ∈ l ∧ a ∉ seen) := by
  intro l
  induction l with
  | nil => intro seen; simp [dedupFirstAux]
  | cons k t ih =>
    intro seen
    by_cases hk : seen.contains k
    · simp only [dedupFirstAux, if_pos hk, ih]
      have hkm : k ∈ seen := by simpa using hk
      constructor
      · rintro ⟨h1, h2⟩; exact ⟨List.mem_cons_of_mem _ h1, h2⟩
      · rintro ⟨h1, h2⟩
        rcases List.mem_cons.mp h1 with rfl | h1'
        · exact absurd hkm h2
        · exact ⟨h1', h2⟩
    · simp only [dedupFirstAux, if_neg hk]
      have hkm : k ∉ seen := by simpa using hk
      by_cases hak : a = k
      · subst hak
        simp [hkm]
      · constructor
        · intro h
          rcases List.mem_cons.mp h with rfl | h'
          · exact absurd rfl hak
          · rcases (ih (k :: seen)).mp h' with ⟨h1, h2⟩
            exact ⟨List.mem_cons_of_mem _ h1,
              fun hc => h2 (List.mem_cons_of_mem _ hc)⟩
        · rintro ⟨h1, h2⟩
          rcases List.mem_cons.mp h1 with rfl | h1'
          · exact absurd rfl hak
          · exact List.mem_cons_of_mem _ ((ih (k :: seen)).mpr
              ⟨h1', fun hc => by
                rcases List.mem_cons.mp hc with rfl | hc'
                · exact hak rfl
                · exact h2 hc'⟩)

theorem mem_dedupFirst {a : String} {l : List String} :
    a ∈ dedupFirst l ↔ a ∈ l := by
  simp [dedupFirst, mem_dedupFirstAux]

theorem nodup_dedupFirstAux :
    ∀ (l : List String) (seen : List String), (dedupFirstAux seen l).Nodup := by
  intro l
  induction l with
  | nil => intro seen; simp [dedupFirstAux]
  | cons k t ih =>
    intro seen
    by_cases hk : seen.contains k
    · simp only [dedupFirstAux]
      rw [if_pos hk]
      exact ih seen
    · simp only [dedupFirstAux, if_neg hk]
      refine List.nodup_cons.mpr ⟨?_, ih (k :: seen)⟩
      intro hmem
      exact ((mem_dedupFirstAux _ _).mp hmem).2 (List.mem_cons_self k seen)

theorem nodup_dedupFirst (l : List String) : (dedupFirst l).Nodup :=
  nodup_dedupFirstAux l []

theorem dedupFirstAux_eq_self :
    ∀ (l : List String) (seen : List String), l.Nodup → (∀ a ∈ l, a ∉ seen) →
      dedupFirstAux seen l = l := by
  intro l
  induction l with
  | nil => intro seen _ _; rfl
  | cons k t ih =>
    intro seen hn hd
    have hk : ¬ (seen.contains k = true) := by
      simpa using hd k (List.mem_cons_self k t)
    rcases List.nodup_cons.mp hn with ⟨hkt, hnt⟩
    simp only [dedupFirstAux, if_neg hk]
    congr 1
    refine ih (k :: seen) hnt ?_
    intro a ha hc
    rcases List.mem_cons.mp hc with rfl | hc'
    · exact hkt ha
    · exact hd a (List.mem_cons_of_mem _ ha) hc'

theorem dedupFirst_eq_self {l : List String} (h : l.Nodup) :
    dedupFirst l = l :=
  dedupFirstAux_eq_self l [] h (fun _ _ hc => by simp at hc)

end DedupLemmas

end NewsBot

namespace NewsBot

theorem probeLoop_none (now : Int) (api : String → Option (String × Int))
    (hapi : ∀ p, api p = none) :
    ∀ ps : List String, Digest.probeLoop now api ps = none := by
  intro ps
  induction ps with
  | nil => rfl
  | cons p rest ih => simp [Digest.probeLoop, hapi p, ih]

/-- C1.  If a forced media identifier is configured (non-empty), the
resolver returns the watch URL built from that identifier with confidence
HIGH, for every behaviour of the API and scrape collaborators and every
fallback setting. -/
theorem c1_forced_override_wins (cfg : Digest.ResolverConfig) (now : Int)
    (api : String → Option (String × Int)) (scrape : Option String)
    (h : cfg.forceId ≠ ("")) :
    Digest.resolve_featured_adilo_watch_url cfg now api scrape
      = (Digest.watchUrl cfg.forceId, Digest.Confidence.HIGH) := by
  simp [Digest.resolve_featured_adilo_watch_url, h]

theorem c1_forced_override_wins_witness :
    Digest.resolve_featured_adilo_watch_url Digest.cfgForce 5
        (fun _ => some (("zzz"), 99999999)) (some ("sss"))
      = (Digest.watchUrl ("ABC123"), Digest.Confidence.HIGH) :=
  c1_forced_override_wins Digest.cfgForce 5
    (fun _ => some (("zzz"), 99999999)) (some ("sss")) (by decide)

/-- C2 counterexample.  With no forced override, a failing API and an empty
scrape, the resolver does NOT always return the static hub URL: when a
fallback identifier is configured it returns that identifier's watch URL
instead. -/
theorem c2_resolver_fallback_counterexample :
    Digest.cfgNoForce.forceId = ("")
    ∧ (Digest.resolve_featured_adilo_watch_url Digest.cfgNoForce 0
        (fun _ => none) none).1 ≠ Digest.cfgNoForce.fallbackUrl
    ∧ Digest.resolve_featured_adilo_watch_url Digest.cfgNoForce 0
        (fun _ => none) none
      = (Digest.watchUrl ("VID999"), Digest.Confidence.FALLBACK) := by
  refine ⟨by decide, by decide, by decide⟩

/-- C2 amended.  With no forced override, every API probe failing and the
scrape yielding no identifier, the resolver still returns a result with
confidence FALLBACK and never raises: the watch URL of the configured
fallback identifier when one is set, otherwise the static hub URL. -/
theorem c2_resolver_total_fallback (cfg : Digest.ResolverConfig) (now : Int)
    (api : String → Option (String × Int)) (scrape : Option String)
    (h1 : cfg.forceId = ("")) (h2 : ∀ p, api p = none) (h3 : scrape = none) :
    Digest.resolve_featured_adilo_watch_url cfg now api scrape
      = ((if cfg.fallbackId = ("") then cfg.fallbackUrl
          else Digest.watchUrl cfg.fallbackId), Digest.Confidence.FALLBACK) := by
  subst h3
  simp only [Digest.resolve_featured_adilo_watch_url, if_pos h1]
  rw [probeLoop_none now api h2]
  by_cases hc : cfg.publicKey = ("") ∨ cfg.secretKey = ("") ∨ cfg.projectId = ("")
  · rw [if_pos hc]
    by_cases hf : cfg.fallbackId = ("") <;>
      simp [Digest.scrapeOrFallback, hf]
  · rw [if_neg hc]
    by_cases hf : cfg.fallbackId = ("") <;>
      simp [Digest.scrapeOrFallback, hf]

theorem c2_resolver_total_fallback_witness :
    Digest.resolve_featured_adilo_watch_url Digest.cfgNoForce 0
        (fun _ => none) none
      = (Digest.watchUrl ("VID999"), Digest.Confidence.FALLBACK) := by
  rw [c2_resolver_total_fallback Digest.cfgNoForce 0 (fun _ => none) none
    (by decide) (fun _ => rfl) rfl]
  decide

/-- C10.  In main.py the `NON_GAME_ENTERTAINMENT` branch of `hard_block` is
unreachable: its condition requires the relevance gate to have failed, but
control reaches it only after the gate passed, so no input ever yields this
reason code. -/
theorem c10_entertainment_branch_unreachable (t s : String) :
    Main.hard_block t s ≠ ("NON_GAME_ENTERTAINMENT") := by
  by_cases hg : Main.game_or_adjacent t s
  · simp only [Main.hard_block, hg, Bool.not_true, Bool.and_false]
    split_ifs <;> decide
  · have hg' : Main.game_or_adjacent t s = false := by simpa using hg
    simp only [Main.hard_block, hg', Bool.not_false, if_true]
    decide

/-- C4 counterexample.  The relevance gate does NOT pass whenever the joined
text contains a domain-allowlist term: digest.py's gate is vetoed by the
entertainment block first, so "nintendo movie" fails the gate even though
"nintendo" is an allowlist term. -/
theorem c4_gate_counterexample :
    contains_any (joinTS ("nintendo movie") ("")) Digest.GAME_TERMS = true
    ∧ Digest.game_or_adjacent ("nintendo movie") ("") = false := by
  refine ⟨by decide, by decide⟩

/-- C4 amended.  The digest.py relevance gate passes exactly when no
entertainment-block term matches AND (a domain-allowlist term matches or the
title has the specific-title shape: length ≥ 12 after trimming with a colon
or a spaced ASCII hyphen); the main.py gate has no shape heuristic and no
entertainment veto — it passes exactly when an allowlist term matches. -/
theorem c4_relevance_gate_characterization (t s : String) :
    (Digest.game_or_adjacent t s = true ↔
      (contains_any (joinTS t s) Digest.NON_GAMING_ENTERTAINMENT_BLOCK = false
        ∧ (contains_any (joinTS t s) Digest.GAME_TERMS = true
           ∨ contains_any (joinTS t s) Digest.ADJACENT_TERMS = true
           ∨ Digest.looks_like_a_specific_game_title t = true)))
    ∧ (Main.game_or_adjacent t s = true ↔
      (contains_any (joinTS t s) Main.GAME_TERMS = true
        ∨ contains_any (joinTS t s) Main.ADJACENT_TERMS = true)) := by
  constructor
  · cases hE : contains_any (joinTS t s) Digest.NON_GAMING_ENTERTAINMENT_BLOCK <;>
      cases hG : contains_any (joinTS t s) Digest.GAME_TERMS <;>
      cases hA : contains_any (joinTS t s) Digest.ADJACENT_TERMS <;>
      cases hL : Digest.looks_like_a_specific_game_title t <;>
      simp [Digest.game_or_adjacent, hE, hG, hA, hL]
  · cases hG : contains_any (joinTS t s) Main.GAME_TERMS <;>
      cases hA : contains_any (joinTS t s) Main.ADJACENT_TERMS <;>
      simp [Main.game_or_adjacent, hG, hA]

/-- C3 counterexample.  The claim's evaluation order (relevance gate first)
disagrees with digest.py: on "a movie" the gate fails and the claim predicts
`NOT_GAME_OR_ADJACENT`, but `block_reason` checks the entertainment block
before the gate and returns `NON_GAMING_ENTERTAINMENT`. -/
theorem c3_precedence_counterexample :
    Digest.claimOrderReason ("a movie") ("") = ("NOT_GAME_OR_ADJACENT")
    ∧ Digest.block_reason ("a movie") ("") = ("NON_GAMING_ENTERTAINMENT")
    ∧ Digest.block_reason ("a movie") ("")
        ≠ Digest.claimOrderReason ("a movie") ("") := by
  refine ⟨by decide, by decide, by decide⟩

/-- C3 amended.  Each classifier returns exactly one reason — the first
matching check in its own source order.  digest.py's `block_reason` checks
entertainment BEFORE the relevance gate, then community, listicle,
evergreen, deals/money, rumor; main.py's `hard_block` checks the relevance
gate first, then community, listicle, evergreen, deals/money, rumor (its
trailing entertainment branch never fires). -/
theorem c3_first_match_precedence (t s : String) :
    (contains_any (joinTS t s) Digest.NON_GAMING_ENTERTAINMENT_BLOCK = true →
       Digest.block_reason t s = ("NON_GAMING_ENTERTAINMENT"))
  ∧ (contains_any (joinTS t s) Digest.NON_GAMING_ENTERTAINMENT_BLOCK = false →
     Digest.game_or_adjacent t s = false →
       Digest.block_reason t s = ("NOT_GAME_OR_ADJACENT"))
  ∧ (contains_any (joinTS t s) Digest.NON_GAMING_ENTERTAINMENT_BLOCK = false →
     Digest.game_or_adjacent t s = true →
     contains_any (joinTS t s) Digest.COMMUNITY_OPINION_BLOCK = true →
       Digest.block_reason t s = ("COMMUNITY/OPINION"))
  ∧ (contains_any (joinTS t s) Digest.NON_GAMING_ENTERTAINMENT_BLOCK = false →
     Digest.game_or_adjacent t s = true →
     contains_any (joinTS t s) Digest.COMMUNITY_OPINION_BLOCK = false →
     contains_any (joinTS t s) Digest.LISTICLE_GUIDE_BLOCK = true →
       Digest.block_reason t s = ("LISTICLE/GUIDE/REVIEW"))
  ∧ (contains_any (joinTS t s) Digest.NON_GAMING_ENTERTAINMENT_BLOCK = false →
     Digest.game_or_adjacent t s = true →
     contains_any (joinTS t s) Digest.COMMUNITY_OPINION_BLOCK = false →
     contains_any (joinTS t s) Digest.LISTICLE_GUIDE_BLOCK = false →
     contains_any (joinTS t s) Digest.EVERGREEN_BLOCK = true →
       Digest.block_reason t s = ("EVERGREEN/SEO_REFRESH"))
  ∧ (contains_any (joinTS t s) Digest.NON_GAMING_ENTERTAINMENT_BLOCK = false →
     Digest.game_or_adjacent t s = true →
     contains_any (joinTS t s) Digest.COMMUNITY_OPINION_BLOCK = false →
     contains_any (joinTS t s) Digest.LISTICLE_GUIDE_BLOCK = false →
     contains_any (joinTS t s) Digest.EVERGREEN_BLOCK = false →
     (contains_any (joinTS t s) Digest.DEALS_BLOCK
        || has_money_signals (joinTS t s)) = true →
       Digest.block_reason t s = ("DEALS/SHOPPING"))
  ∧ (contains_any (joinTS t s) Digest.NON_GAMING_ENTERTAINMENT_BLOCK = false →
     Digest.game_or_adjacent t s = true →
     contains_any (joinTS t s) Digest.COMMUNITY_OPINION_BLOCK = false →
     contains_any (joinTS t s) Digest.LISTICLE_GUIDE_BLOCK = false →
     contains_any (joinTS t s) Digest.EVERGREEN_BLOCK = false →
     (contains_any (joinTS t s) Digest.DEALS_BLOCK
        || has_money_signals (joinTS t s)) = false →
     contains_any (joinTS t s) Digest.RUMOR_BLOCK = true →
       Digest.block_reason t s = ("RUMOR/SPECULATION"))
  ∧ (contains_any (joinTS t s) Digest.NON_GAMING_ENTERTAINMENT_BLOCK = false →
     Digest.game_or_adjacent t s = true →
     contains_any (joinTS t s) Digest.COMMUNITY_OPINION_BLOCK = false →
     contains_any (joinTS t s) Digest.LISTICLE_GUIDE_BLOCK = false →
     contains_any (joinTS t s) Digest.EVERGREEN_BLOCK = false →
     (contains_any (joinTS t s) Digest.DEALS_BLOCK
        || has_money_signals (joinTS t s)) = false →
     contains_any (joinTS t s) Digest.RUMOR_BLOCK = false →
       Digest.block_reason t s = (""))
  ∧ (Main.game_or_adjacent t s = false →
       Main.hard_block t s = ("NOT_GAME_OR_ADJACENT"))
  ∧ (Main.game_or_adjacent t s = true →
     contains_any (joinTS t s) Main.COMMUNITY_OPINION_BLOCK = true →
       Main.hard_block t s = ("COMMUNITY/OPINION"))
  ∧ (Main.game_or_adjacent t s = true →
     contains_any (joinTS t s) Main.COMMUNITY_OPINION_BLOCK = false →
     contains_any (joinTS t s) Main.LISTICLE_GUIDE_BLOCK = true →
       Main.hard_block t s = ("LISTICLE/GUIDE/REVIEW"))
  ∧ (Main.game_or_adjacent t s = true →
     contains_any (joinTS t s) Main.COMMUNITY_OPINION_BLOCK = false →
     contains_any (joinTS t s) Main.LISTICLE_GUIDE_BLOCK = false →
     contains_any (joinTS t s) Main.EVERGREEN_BLOCK = true →
       Main.hard_block t s = ("EVERGREEN/SEO_REFRESH"))
  ∧ (Main.game_or_adjacent t s = true →
     contains_any (joinTS t s) Main.COMMUNITY_OPINION_BLOCK = false →
     contains_any (joinTS t s) Main.LISTICLE_GUIDE_BLOCK = false →
     contains_any (joinTS t s) Main.EVERGREEN_BLOCK = false →
     (contains_any (joinTS t s) Main.DEALS_BLOCK
        || has_money_signals (joinTS t s)) = true →
       Main.hard_block t s = ("DEALS/SHOPPING"))
  ∧ (Main.game_or_adjacent t s = true →
     contains_any (joinTS t s) Main.COMMUNITY_OPINION_BLOCK = false →
     contains_any (joinTS t s) Main.LISTICLE_GUIDE_BLOCK = false →
     contains_any (joinTS t s) Main.EVERGREEN_BLOCK = false →
     (contains_any (joinTS t s) Main.DEALS_BLOCK
        || has_money_signals (joinTS t s)) = false →
     contains_any (joinTS t s) Main.RUMOR_BLOCK = true →
       Main.hard_block t s = ("RUMOR/SPECULATION"))
  ∧ (Main.game_or_adjacent t s = true →
     contains_any (joinTS t s) Main.COMMUNITY_OPINION_BLOCK = false →
     contains_any (joinTS t s) Main.LISTICLE_GUIDE_BLOCK = false →
     contains_any (joinTS t s) Main.EVERGREEN_BLOCK = false →
     (contains_any (joinTS t s) Main.DEALS_BLOCK
        || has_money_signals (joinTS t s)) = false →
     contains_any (joinTS t s) Main.RUMOR_BLOCK = false →
       Main.hard_block t s = ("")) := by
  refine ⟨?_, ?_, ?_, ?_, ?_, ?_, ?_, ?_, ?_, ?_, ?_, ?_, ?_, ?_, ?_⟩ <;>
    intros <;> simp_all [Digest.block_reason, Main.hard_block]

theorem c3_first_match_precedence_witness :
    Digest.block_reason ("a movie") ("") = ("NON_GAMING_ENTERTAINMENT")
  ∧ Digest.block_reason ("zzz") ("") = ("NOT_GAME_OR_ADJACENT")
  ∧ Digest.block_reason ("nintendo poll:") ("") = ("COMMUNITY/OPINION")
  ∧ Digest.block_reason ("nintendo best stuff") ("") = ("LISTICLE/GUIDE/REVIEW")
  ∧ Digest.block_reason ("nintendo history of time") ("") = ("EVERGREEN/SEO_REFRESH")
  ∧ Digest.block_reason ("nintendo $5") ("") = ("DEALS/SHOPPING")
  ∧ Digest.block_reason ("nintendo insider") ("") = ("RUMOR/SPECULATION")
  ∧ Digest.block_reason ("nintendo thing") ("") = ("")
  ∧ Main.hard_block ("zzz") ("") = ("NOT_GAME_OR_ADJACENT")
  ∧ Main.hard_block ("nintendo poll:") ("") = ("COMMUNITY/OPINION")
  ∧ Main.hard_block ("nintendo best stuff") ("") = ("LISTICLE/GUIDE/REVIEW")
  ∧ Main.hard_block ("nintendo history of time") ("") = ("EVERGREEN/SEO_REFRESH")
  ∧ Main.hard_block ("nintendo $5") ("") = ("DEALS/SHOPPING")
  ∧ Main.hard_block ("nintendo insider") ("") = ("RUMOR/SPECULATION")
  ∧ Main.hard_block ("nintendo thing") ("") = ("") :=
  ⟨(c3_first_match_precedence ("a movie") ("")).1 (by decide),
   (c3_first_match_precedence ("zzz") ("")).2.1 (by decide) (by decide),
   (c3_first_match_precedence ("nintendo poll:") ("")).2.2.1
     (by decide) (by decide) (by decide),
   (c3_first_match_precedence ("nintendo best stuff") ("")).2.2.2.1
     (by decide) (by decide) (by decide) (by decide),
   (c3_first_match_precedence ("nintendo history of time") ("")).2.2.2.2.1
     (by decide) (by decide) (by decide) (by decide) (by decide),
   (c3_first_match_precedence ("nintendo $5") ("")).2.2.2.2.2.1
     (by decide) (by decide) (by decide) (by decide) (by decide) (by decide),
   (c3_first_match_precedence ("nintendo insider") ("")).2.2.2.2.2.2.1
     (by decide) (by decide) (by decide) (by decide) (by decide) (by decide)
     (by decide),
   (c3_first_match_precedence ("nintendo thing") ("")).2.2.2.2.2.2.2.1
     (by decide) (by decide) (by decide) (by decide) (by decide) (by decide)
     (by decide),
   (c3_first_match_precedence ("zzz") ("")).2.2.2.2.2.2.2.2.1 (by decide),
   (c3_first_match_precedence ("nintendo poll:") ("")).2.2.2.2.2.2.2.2.2.1
     (by decide) (by decide),
   (c3_first_match_precedence ("nintendo best stuff") ("")).2.2.2.2.2.2.2.2.2.2.1
     (by decide) (by decide) (by decide),
   (c3_first_match_precedence ("nintendo history of time") ("")).2.2.2.2.2.2.2.2.2.2.2.1
     (by decide) (by decide) (by decide) (by decide),
   (c3_first_match_precedence ("nintendo $5") ("")).2.2.2.2.2.2.2.2.2.2.2.2.1
     (by decide) (by decide) (by decide) (by decide) (by decide),
   (c3_first_match_precedence ("nintendo insider") ("")).2.2.2.2.2.2.2.2.2.2.2.2.2.1
     (by decide) (by decide) (by decide) (by decide) (by decide) (by decide),
   (c3_first_match_precedence ("nintendo thing") ("")).2.2.2.2.2.2.2.2.2.2.2.2.2.2
     (by decide) (by decide) (by decide) (by decide) (by decide) (by decide)⟩

/-- C5.  The duplicate guard returns true unconditionally when the exact URL
is already seen (even with update wording); when only the story key has been
seen it returns false exactly when the text carries an update keyword, for
every fuzzy-similarity behaviour. -/
theorem c5_dup_guard_url_and_key_rules (fz : String → String → Nat)
    (item : Main.Item) (st : Main.SeenState) :
    (st.seen_urls.contains item.url = true →
       Main.is_duplicate_or_allowed_update fz item st = true)
  ∧ (st.seen_urls.contains item.url = false →
     st.seen_story_keys.contains item.story_key = true →
     Main.contains_update_keyword item.title item.summary = true →
       Main.is_duplicate_or_allowed_update fz item st = false)
  ∧ (st.seen_urls.contains item.url = false →
     st.seen_story_keys.contains item.story_key = true →
     Main.contains_update_keyword item.title item.summary = false →
       Main.is_duplicate_or_allowed_update fz item st = true) := by
  refine ⟨?_, ?_, ?_⟩
  · intro h1
    simp only [Main.is_duplicate_or_allowed_update]
    rw [if_pos h1]
  · intro h1 h2 h3
    simp only [Main.is_duplicate_or_allowed_update]
    rw [if_neg (by simpa using h1)]
    simp [h3]
  · intro h1 h2 h3
    simp only [Main.is_duplicate_or_allowed_update]
    rw [if_neg (by simpa using h1)]
    simp only [h3, Bool.not_false, Bool.and_true]
    rw [if_pos h2]

theorem c5_dup_guard_url_and_key_rules_witness :
    Main.is_duplicate_or_allowed_update simEq Main.itUrlDup Main.stSeen = true
  ∧ Main.is_duplicate_or_allowed_update simEq Main.itKeyUpd Main.stSeen = false
  ∧ Main.is_duplicate_or_allowed_update simEq Main.itKeyNoUpd Main.stSeen = true :=
  ⟨(c5_dup_guard_url_and_key_rules simEq Main.itUrlDup Main.stSeen).1 (by decide),
   (c5_dup_guard_url_and_key_rules simEq Main.itKeyUpd Main.stSeen).2.1
     (by decide) (by decide) (by decide),
   (c5_dup_guard_url_and_key_rules simEq Main.itKeyNoUpd Main.stSeen).2.2
     (by decide) (by decide) (by decide)⟩

/-- C6 counterexample.  A normalized title retained in the persisted history
(position 501 from the end, within the 5000-entry retention bound) with
similarity 100 ≥ 92 and no update signal is NOT flagged: the guard only
scans `seen_titles[-500:]`. -/
theorem c6_fuzzy_window_counterexample :
    ("alpha") ∈ Main.stDeep.seen_titles
  ∧ Main.TITLE_FUZZY_THRESHOLD ≤ simEq (Main.normTitle Main.itAlpha.title) ("alpha")
  ∧ Main.contains_update_keyword Main.itAlpha.title Main.itAlpha.summary = false
  ∧ Main.is_duplicate_or_allowed_update simEq Main.itAlpha Main.stDeep = false := by
  refine ⟨by decide, by decide, by decide, by decide⟩

/-- C6 amended.  For every normalized title among the LAST 500 entries of
the seen-titles history, fuzzy similarity at or above the threshold with no
update signal forces the guard to return true. -/
theorem c6_fuzzy_duplicate_within_window (fz : String → String → Nat)
    (item : Main.Item) (st : Main.SeenState) (seen : String)
    (hmem : seen ∈ Main.lastN 500 st.seen_titles)
    (hge : Main.TITLE_FUZZY_THRESHOLD ≤ fz (Main.normTitle item.title) seen)
    (hupd : Main.contains_update_keyword item.title item.summary = false) :
    Main.is_duplicate_or_allowed_update fz item st = true := by
  by_cases h1 : st.seen_urls.contains item.url = true
  · simp only [Main.is_duplicate_or_allowed_update]
    rw [if_pos h1]
  · simp only [Main.is_duplicate_or_allowed_update]
    rw [if_neg h1]
    simp [hupd]
    exact Or.inr ⟨seen, hmem, hge⟩

theorem c6_fuzzy_duplicate_within_window_witness :
    Main.is_duplicate_or_allowed_update simEq Main.itAlpha Main.stShallow = true :=
  c6_fuzzy_duplicate_within_window simEq Main.itAlpha Main.stShallow ("alpha")
    (by decide) (by decide) (by decide)

section ClusterLemmas

theorem pbLe_refl (a : Nat × Int) : Main.pbLe a a := by
  simp only [Main.pbLe, Main.pbLt]
  omega

theorem pbLe_trans {a b c : Nat × Int} (h1 : Main.pbLe a b) (h2 : Main.pbLe b c) :
    Main.pbLe a c := by
  simp only [Main.pbLe, Main.pbLt] at h1 h2 ⊢
  omega

theorem pbLe_of_pbLt {a b : Nat × Int} (h : Main.pbLt a b) : Main.pbLe a b := by
  simp only [Main.pbLt] at h
  simp only [Main.pbLe, Main.pbLt]
  omega

theorem foldl_pick_mem (x : Main.Item) (xs : List Main.Item) :
    xs.foldl
      (fun best y => if Main.pbLt (Main.pbKey y) (Main.pbKey best) then y else best)
      x ∈ x :: xs := by
  induction xs generalizing x with
  | nil => simp
  | cons y ys ih =>
    simp only [List.foldl_cons]
    by_cases hc : Main.pbLt (Main.pbKey y) (Main.pbKey x)
    · rw [if_pos hc]
      exact List.mem_cons_of_mem x (ih y)
    · rw [if_neg hc]
      rcases List.mem_cons.mp (ih x) with h | h
      · rw [h]
        exact List.mem_cons_self _ _
      · exact List.mem_cons_of_mem x (List.mem_cons_of_mem y h)

theorem foldl_pick_le (x : Main.Item) (xs : List Main.Item) :
    ∀ z ∈ x :: xs,
      Main.pbLe
        (Main.pbKey (xs.foldl
          (fun best y => if Main.pbLt (Main.pbKey y) (Main.pbKey best) then y else best)
          x))
        (Main.pbKey z) := by
  induction xs generalizing x with
  | nil =>
    intro z hz
    rcases List.mem_cons.mp hz with rfl | h
    · exact pbLe_refl _
    · simp at h
  | cons y ys ih =>
    intro z hz
    simp only [List.foldl_cons]
    by_cases hc : Main.pbLt (Main.pbKey y) (Main.pbKey x)
    · rw [if_pos hc]
      rcases List.mem_cons.mp hz with rfl | hz'
      · exact pbLe_trans (ih y y (List.mem_cons_self y ys)) (pbLe_of_pbLt hc)
      · rcases List.mem_cons.mp hz' with rfl | hz''
        · exact ih z z (List.mem_cons_self z ys)
        · exact ih y z (List.mem_cons_of_mem y hz'')
    · rw [if_neg hc]
      rcases List.mem_cons.mp hz with rfl | hz'
      · exact ih z z (List.mem_cons_self z ys)
      · rcases List.mem_cons.mp hz' with rfl | hz''
        · exact pbLe_trans (ih x x (List.mem_cons_self x ys)) hc
        · exact ih x z (List.mem_cons_of_mem x hz'')

theorem pick_best_source_spec {l : List Main.Item} {b : Main.Item}
    (h : Main.pick_best_source l = some b) :
    b ∈ l ∧ ∀ z ∈ l, Main.pbLe (Main.pbKey b) (Main.pbKey z) := by
  cases l with
  | nil => simp [Main.pick_best_source] at h
  | cons x xs =>
    simp only [Main.pick_best_source, Option.some.injEq] at h
    subst h
    exact ⟨foldl_pick_mem x xs, foldl_pick_le x xs⟩

theorem mem_groupOf {z : Main.Item} {items : List Main.Item} {k : String} :
    z ∈ Main.groupOf items k ↔ (z ∈ items ∧ z.story_key = k) := by
  simp [Main.groupOf, List.mem_filter]

theorem groupOf_cons (x : Main.Item) (items : List Main.Item) (k : String) :
    Main.groupOf (x :: items) k =
      if x.story_key = k then x :: Main.groupOf items k
      else Main.groupOf items k := by
  simp only [Main.groupOf, List.filter_cons]
  by_cases h : x.story_key = k
  · rw [if_pos (by simpa using h), if_pos h]
  · rw [if_neg (by simpa using h), if_neg h]

theorem chosenReps_rep_spec {items : List Main.Item} {x : Main.Item}
    (hx : x ∈ Main.chosenReps items) :
    x ∈ items ∧ ∀ y ∈ items, y.story_key = x.story_key →
      Main.pbLe (Main.pbKey x) (Main.pbKey y) := by
  rcases List.mem_filterMap.mp hx with ⟨k, _, hpick⟩
  rcases pick_best_source_spec hpick with ⟨hmem, hle⟩
  rcases mem_groupOf.mp hmem with ⟨hin, hkey⟩
  refine ⟨hin, ?_⟩
  intro y hy hyk
  exact hle y (mem_groupOf.mpr ⟨hy, by rw [hyk, hkey]⟩)

theorem filterMap_pick_map_key (items : List Main.Item) :
    ∀ ks : List String,
      (∀ k ∈ ks, k ∈ items.map (fun it => it.story_key)) →
      ((ks.filterMap (fun k => Main.pick_best_source (Main.groupOf items k))).map
        (fun it => it.story_key)) = ks := by
  intro ks
  induction ks with
  | nil => intro _; rfl
  | cons k kt ih =>
    intro hcov
    have hk : k ∈ items.map (fun it => it.story_key) :=
      hcov k (List.mem_cons_self k kt)
    rcases List.mem_map.mp hk with ⟨it, hit, hkey⟩
    obtain ⟨b, hb⟩ : ∃ b, Main.pick_best_source (Main.groupOf items k) = some b := by
      cases hg : Main.groupOf items k with
      | nil =>
        have : it ∈ Main.groupOf items k := mem_groupOf.mpr ⟨hit, hkey⟩
        rw [hg] at this
        simp at this
      | cons a as => exact ⟨_, rfl⟩
    have hkb : b.story_key = k := (mem_groupOf.mp (pick_best_source_spec hb).1).2
    simp only [List.filterMap_cons, hb, List.map_cons, hkb]
    congr 1
    exact ih (fun k' hk' => hcov k' (List.mem_cons_of_mem k hk'))

theorem map_key_chosenReps (items : List Main.Item) :
    (Main.chosenReps items).map (fun it => it.story_key)
      = dedupFirst (items.map (fun it => it.story_key)) :=
  filterMap_pick_map_key items _ (fun _ hk => mem_dedupFirst.mp hk)

theorem singleton_mem_chosenReps {items : List Main.Item} {x : Main.Item}
    (h : Main.groupOf items x.story_key = [x]) : x ∈ Main.chosenReps items := by
  have hxg : x ∈ Main.groupOf items x.story_key := by
    rw [h]
    exact List.mem_cons_self x []
  have hx : x ∈ items := (mem_groupOf.mp hxg).1
  have hk : x.story_key ∈ items.map (fun it => it.story_key) :=
    List.mem_map_of_mem (fun it => it.story_key) hx
  exact List.mem_filterMap.mpr
    ⟨x.story_key, mem_dedupFirst.mpr hk, by rw [h]; rfl⟩

end ClusterLemmas

/-- C7.  Clustering: every output element is a member of the input that is
minimal in its story-key group under (priority index ascending, publishedAt
descending); the output is sorted by publishedAt descending; it has exactly
one representative per input story key (no duplicate keys, and a key appears
in the output iff it appears in the input); a size-one group passes its sole
member through; and any source absent from the priority list ranks strictly
below every listed source. -/
theorem c7_cluster_by_key_and_priority (items : List Main.Item) :
    (∀ x ∈ Main.cluster_items items, x ∈ items ∧
       ∀ y ∈ items, y.story_key = x.story_key →
         Main.pbLe (Main.pbKey x) (Main.pbKey y))
  ∧ (Main.cluster_items items).Pairwise
      (fun a b => b.published_at ≤ a.published_at)
  ∧ ((Main.cluster_items items).map (fun it => it.story_key)).Nodup
  ∧ (∀ k, k ∈ (Main.cluster_items items).map (fun it => it.story_key) ↔
        k ∈ items.map (fun it => it.story_key))
  ∧ (∀ x : Main.Item, Main.groupOf items x.story_key = [x] →
       x ∈ Main.cluster_items items)
  ∧ (∀ s, s ∉ Main.SOURCE_PRIORITY →
       ∀ t ∈ Main.SOURCE_PRIORITY, Main.prioIndex t < Main.prioIndex s) := by
  have hperm : (Main.cluster_items items).Perm (Main.chosenReps items) := by
    unfold Main.cluster_items
    exact sortDescBy_perm _ _
  have hkeyperm :
      ((Main.cluster_items items).map (fun it => it.story_key)).Perm
        ((Main.chosenReps items).map (fun it => it.story_key)) :=
    hperm.map (fun it => it.story_key)
  refine ⟨?_, ?_, ?_, ?_, ?_, ?_⟩
  · intro x hx
    exact chosenReps_rep_spec (hperm.mem_iff.mp hx)
  · exact sortDescBy_pairwise (fun x => x.published_at) (Main.chosenReps items)
  · rw [hkeyperm.nodup_iff, map_key_chosenReps]
    exact nodup_dedupFirst _
  · intro k
    rw [hkeyperm.mem_iff, map_key_chosenReps, mem_dedupFirst]
  · intro x hx
    exact hperm.mem_iff.mpr (singleton_mem_chosenReps hx)
  · intro s hs t ht
    have h999 : Main.prioIndex s = 999 := by
      simp only [Main.SOURCE_PRIORITY, List.mem_cons, not_or, List.not_mem_nil,
        or_false] at hs
      obtain ⟨n1, n2, n3, n4, n5, n6, n7, n8⟩ := hs
      simp [Main.prioIndex, Main.SOURCE_PRIORITY, List.findIdx?_cons,
        List.findIdx?_nil, Ne.symm n1, Ne.symm n2, Ne.symm n3, Ne.symm n4,
        Ne.symm n5, Ne.symm n6, Ne.symm n7, Ne.symm n8]
    rw [h999]
    simp only [Main.SOURCE_PRIORITY, List.mem_cons, List.not_mem_nil,
      or_false] at ht
    rcases ht with rfl | rfl | rfl | rfl | rfl | rfl | rfl | rfl <;> decide

theorem c7_cluster_by_key_and_priority_witness :
    Main.pbLe (Main.pbKey Main.iIGN) (Main.pbKey Main.iBlues)
  ∧ Main.iPoly ∈ Main.cluster_items [Main.iIGN, Main.iBlues, Main.iPoly]
  ∧ ("k1") ∈ (Main.cluster_items [Main.iIGN, Main.iBlues, Main.iPoly]).map
      (fun it => it.story_key)
  ∧ Main.prioIndex ("GameSpot") < Main.prioIndex ("unknown source") :=
  ⟨((c7_cluster_by_key_and_priority [Main.iIGN, Main.iBlues, Main.iPoly]).1
      Main.iIGN (by decide)).2 Main.iBlues (by decide) (by decide),
   (c7_cluster_by_key_and_priority [Main.iIGN, Main.iBlues, Main.iPoly]).2.2.2.2.1
      Main.iPoly (by decide),
   ((c7_cluster_by_key_and_priority [Main.iIGN, Main.iBlues, Main.iPoly]).2.2.2.1
      ("k1")).mpr (by decide),
   (c7_cluster_by_key_and_priority []).2.2.2.2.2 ("unknown source") (by decide)
      ("GameSpot") (by decide)⟩

theorem filterMap_pick_self :
    ∀ items : List Main.Item,
      ((items.map (fun it => it.story_key)).Nodup) →
      (items.map (fun it => it.story_key)).filterMap
        (fun k => Main.pick_best_source (Main.groupOf items k)) = items := by
  intro items
  induction items with
  | nil => intro _; rfl
  | cons x xs ih =>
    intro h
    simp only [List.map_cons] at h
    rcases List.nodup_cons.mp h with ⟨hx, hxs⟩
    have hgnil : Main.groupOf xs x.story_key = [] := by
      refine List.filter_eq_nil_iff.mpr ?_
      intro a ha hc
      have : a.story_key = x.story_key := by simpa using hc
      exact hx (this ▸ List.mem_map_of_mem (fun it => it.story_key) ha)
    have hg : Main.groupOf (x :: xs) x.story_key = [x] := by
      rw [groupOf_cons, if_pos rfl, hgnil]
    have hcong :
        (xs.map (fun it => it.story_key)).filterMap
            (fun k => Main.pick_best_source (Main.groupOf (x :: xs) k))
          = (xs.map (fun it => it.story_key)).filterMap
            (fun k => Main.pick_best_source (Main.groupOf xs k)) := by
      refine List.filterMap_congr ?_
      intro k hk
      have hne : x.story_key ≠ k := fun he => hx (he ▸ hk)
      rw [groupOf_cons, if_neg hne]
    simp only [List.map_cons, List.filterMap_cons, hg]
    rw [hcong, ih hxs]
    rfl

theorem chosenReps_eq_self {items : List Main.Item}
    (h : (items.map (fun it => it.story_key)).Nodup) :
    Main.chosenReps items = items := by
  unfold Main.chosenReps
  rw [dedupFirst_eq_self h]
  exact filterMap_pick_self items h

/-- C8.  Clustering is idempotent: applying `cluster_items` to its own
output returns that output unchanged (every representative is alone in its
story-key bucket and the list is already sorted). -/
theorem c8_cluster_idempotent (items : List Main.Item) :
    Main.cluster_items (Main.cluster_items items) = Main.cluster_items items := by
  have hperm : (Main.cluster_items items).Perm (Main.chosenReps items) := by
    unfold Main.cluster_items
    exact sortDescBy_perm _ _
  have hnod : ((Main.cluster_items items).map (fun it => it.story_key)).Nodup := by
    rw [(hperm.map (fun it => it.story_key)).nodup_iff, map_key_chosenReps]
    exact nodup_dedupFirst _
  have hpair : (Main.cluster_items items).Pairwise
      (fun a b => b.published_at ≤ a.published_at) :=
    sortDescBy_pairwise (fun x => x.published_at) (Main.chosenReps items)
  show sortDescBy (fun x => x.published_at)
      (Main.chosenReps (Main.cluster_items items)) = Main.cluster_items items
  rw [chosenReps_eq_self hnod]
  exact sortDescBy_eq_self (fun x : Main.Item => x.published_at) hpair

section SelectorLemmas

theorem countSource_snoc (s : String) (l : List Digest.DItem) (it : Digest.DItem) :
    Digest.countSource s (l ++ [it])
      = Digest.countSource s l + (if it.source = s then 1 else 0) := by
  by_cases h : it.source = s
  · simp [Digest.countSource, List.filter_append, List.filter_cons, h]
  · simp [Digest.countSource, List.filter_append, List.filter_cons, h]

theorem mem_bySource {β : Type} [LinearOrder β] {score : Digest.DItem → β}
    {deduped : List Digest.DItem} {s : String} {it : Digest.DItem}
    (h : it ∈ Digest.bySource score deduped s) : it.source = s := by
  unfold Digest.bySource at h
  have h2 := (mem_sortDescBy score).mp h
  simpa using (List.mem_filter.mp h2).2

theorem pass1_count {β : Type} [LinearOrder β] (score : Digest.DItem → β)
    (deduped : List Digest.DItem) (topN : Nat) (s : String) :
    ∀ (prio : List String) (picked : List Digest.DItem) (used : List String),
      Digest.countSource s (Digest.pass1 score deduped topN prio picked used).1
        ≤ Digest.countSource s picked + prio.count s := by
  intro prio
  induction prio with
  | nil =>
    intro picked used
    simp [Digest.pass1]
  | cons s0 rest ih =>
    intro picked used
    have hmono : rest.count s ≤ (s0 :: rest).count s := by
      rw [List.count_cons]
      split <;> omega
    simp only [Digest.pass1]
    by_cases h1 : topN ≤ picked.length
    · rw [if_pos h1]
      exact Nat.le_add_right _ _
    · rw [if_neg h1]
      cases hbs : Digest.bySource score deduped s0 with
      | nil => exact le_trans (ih picked used) (by omega)
      | cons it rest2 =>
        have hsrc : it.source = s0 :=
          mem_bySource (by rw [hbs]; exact List.mem_cons_self it rest2)
        dsimp only
        by_cases h2 : used.contains (Digest.normalize_title_key it.title)
        · rw [if_pos h2]
          exact le_trans (ih picked used) (by omega)
        · rw [if_neg h2]
          have h3 := ih (picked ++ [it]) (used ++ [Digest.normalize_title_key it.title])
          rw [countSource_snoc] at h3
          refine le_trans h3 ?_
          rw [List.count_cons, hsrc]
          by_cases hss : s0 = s
          · simp only [hss, if_pos rfl, beq_self_eq_true, if_true]
            omega
          · rw [if_neg hss, if_neg (by simpa using hss)]
            omega

theorem pass2_count (topN mps : Nat) (s : String) :
    ∀ (remaining picked : List Digest.DItem) (used : List String),
      (∀ s', Digest.countSource s' picked ≤ mps) →
      Digest.countSource s (Digest.pass2 topN mps remaining picked used) ≤ mps := by
  intro remaining
  induction remaining with
  | nil =>
    intro picked used h
    simpa [Digest.pass2] using h s
  | cons it rest ih =>
    intro picked used h
    simp only [Digest.pass2]
    by_cases h1 : topN ≤ picked.length
    · rw [if_pos h1]
      exact h s
    · rw [if_neg h1]
      by_cases h2 : mps ≤ Digest.countSource it.source picked
      · rw [if_pos h2]
        exact ih picked used h
      · rw [if_neg h2]
        by_cases h3 : used.contains (Digest.normalize_title_key it.title)
        · rw [if_pos h3]
          exact ih picked used h
        · rw [if_neg h3]
          refine ih _ _ ?_
          intro s'
          rw [countSource_snoc]
          by_cases hss : it.source = s'
          · have h2' : Digest.countSource it.source picked < mps :=
              Nat.lt_of_not_le h2
            rw [hss] at h2'
            rw [if_pos hss]
            omega
          · rw [if_neg hss]
            have := h s'
            omega

end SelectorLemmas

/-- C9 counterexample.  With `maxPerSource = 0` (a legal configuration of
`DIGEST_MAX_PER_SOURCE`) the cap is violated even though the backfill
proviso does not apply: pass 1 ignores the cap and still picks one item per
priority source. -/
theorem c9_select_cap_counterexample :
    ¬ (Digest.distinctSourceCount [Digest.iIGN1] < 1
        ∨ Digest.countSource ("IGN")
            (Digest.select (fun _ => (0 : Int)) [Digest.iIGN1] 1 0) ≤ 0) := by
  decide

/-- C9 amended.  For every scoring function, candidate list, `topN` and
`maxPerSource ≥ 1`, the selector's output contains at most `maxPerSource`
items from any single source (unconditionally — the backfill proviso is not
needed once `maxPerSource ≥ 1`, because pass 1 places at most one item per
source and pass 2 enforces the cap). -/
theorem c9_select_per_source_cap {β : Type} [LinearOrder β]
    (score : Digest.DItem → β) (deduped : List Digest.DItem) (topN mps : Nat)
    (hmps : 1 ≤ mps) (s : String) :
    Digest.countSource s (Digest.select score deduped topN mps) ≤ mps := by
  have hsort : ∀ l : List Digest.DItem,
      Digest.countSource s (sortDescBy score l) = Digest.countSource s l := by
    intro l
    simp only [Digest.countSource, ← List.countP_eq_length_filter]
    exact countP_sortDescBy score _ l
  unfold Digest.select
  rw [hsort]
  refine pass2_count topN mps s _ _ _ ?_
  intro s'
  have h1 := pass1_count score deduped topN s' Main.SOURCE_PRIORITY [] []
  have h2 : Main.SOURCE_PRIORITY.count s' ≤ 1 :=
    List.nodup_iff_count_le_one.mp (by decide) s'
  have h0 : Digest.countSource s' ([] : List Digest.DItem) = 0 := rfl
  omega

theorem c9_select_per_source_cap_witness :
    1 ≤ 1 ∧ Digest.countSource ("IGN")
        (Digest.select (fun _ => (0 : Int)) [Digest.iIGN1] 1 1) ≤ 1 :=
  ⟨by decide, c9_select_per_source_cap (fun _ => (0 : Int)) [Digest.iIGN1] 1 1
    (by decide) ("IGN")⟩

end NewsBot
